import Mathlib

/-!
Verification of the request-preprocessing core of the GAIA-agent chat front-end
(`app.py`): the file classifier and encoder (`QnAChatbot._process_uploaded_files`),
the prompt composer and agent-invocation adapter (`QnAChatbot.process_question`),
the history store (`QnAChatbot.clear_history`) and the Markdown export
(`export_conversation`).

The embedding is shallow:
* Python strings are Lean `String`s; Python slicing and `str.strip` operate on
  code points, modelled through `String.data : List Char`.
* The filesystem is a function `String → Option FileData`: `none` means
  `os.path.exists` is false; an existing file carries the outcome of its two
  possible reads (`open(p,'rb').read()` and `open(p,'r',encoding='utf-8').read()`),
  each an `Except String _` whose `error` case carries `str(e)` of the raised
  exception.
* The external agent graph is a function `List String → Except String (List String)`
  from the contents of the outbound message sequence to either the contents of
  the returned message sequence or `str(e)` of a raised exception.
* `history.append` on a Python list is `· ++ [turn]` on the Lean list.
-/

namespace GaiaApp

/-- Whitespace characters stripped by Python `str.strip()` (ASCII range). -/
def isPySpace (c : Char) : Bool :=
  c = ' ' || c = '\t' || c = '\n' || c = '\x0d' || c = '\x0b' || c = '\x0c'

/-- Model of Python `s.strip()`: drop leading and trailing whitespace. -/
def pyStrip (s : String) : String :=
  String.mk (((s.data.dropWhile isPySpace).reverse.dropWhile isPySpace).reverse)

/-- Model of Python `s.startswith(p)` (code-point wise). -/
def pyStartsWith (s p : String) : Bool :=
  decide (s.data.take p.data.length = p.data)

/-- Model of Python slicing `s[n:]` (code-point wise). -/
def pySliceFrom (s : String) (n : Nat) : String :=
  String.mk (s.data.drop n)

/-- Model of Python `os.path.basename` (POSIX): the part after the last slash. -/
def basename (p : String) : String :=
  String.mk ((p.data.reverse.takeWhile (fun c => c ≠ '/')).reverse)

/-- Model of the extension component of Python `os.path.splitext` applied to a
base name: the suffix from the last dot on, empty when there is no dot or when
every character before the last dot is itself a dot (`.bashrc` has no extension). -/
def splitextExt (b : String) : String :=
  let rev := b.data.reverse
  let after := rev.takeWhile (fun c => c ≠ '.')
  if after.length = rev.length then ""
  else if (rev.drop (after.length + 1)).all (fun c => c = '.') then ""
  else String.mk ((rev.take (after.length + 1)).reverse)

/-- Model of Python `str.lower()` on ASCII extension strings. -/
def lowerStr (s : String) : String :=
  String.mk (s.data.map Char.toLower)

/-- Alphabet of standard base64 (RFC 4648), as used by `base64.b64encode`. -/
def b64Alphabet : List Char :=
  "ABCDEFGHIJKLMNOPQRSTUVWXYZabcdefghijklmnopqrstuvwxyz0123456789+/".data

/-- Character for a 6-bit group. -/
def b64Char (n : Nat) : Char := b64Alphabet.getD n 'A'

/-- Model of `base64.b64encode(bytes).decode('utf-8')`: standard base64 with
padding, three input bytes per four output characters. -/
def base64Encode : List Nat → String
  | [] => ""
  | [a] =>
      String.mk [b64Char (a / 4), b64Char (a % 4 * 16), '=', '=']
  | [a, b] =>
      String.mk [b64Char (a / 4), b64Char (a % 4 * 16 + b / 16),
                 b64Char (b % 16 * 4), '=']
  | a :: b :: c :: rest =>
      String.mk [b64Char (a / 4), b64Char (a % 4 * 16 + b / 16),
                 b64Char (b % 16 * 4 + c / 64), b64Char (c % 64)]
        ++ base64Encode rest

deriving instance DecidableEq for Except

/-- Outcomes of the two ways `_process_uploaded_files` may read an existing
file: binary (`'rb'`) and UTF-8 text.  An `error` carries `str(e)`. -/
structure FileData where
  readBin : Except String (List Nat)
  readTxt : Except String String
  deriving DecidableEq

/-- Filesystem model: `none` when `os.path.exists(p)` is false. -/
def FS : Type := String → Option FileData

/-- Image extensions recognised at `app.py:99`. -/
def imageExts : List String := [".jpg", ".jpeg", ".png", ".gif", ".bmp", ".webp"]

/-- Text/code extensions recognised at `app.py:106`. -/
def textExts : List String := [".txt", ".md", ".py", ".js", ".html", ".css", ".json", ".xml"]

/-- Error fragment emitted by the `except` clause at `app.py:137`. -/
def errorFragment (file_path e : String) : String :=
  "[ERROR PROCESSING FILE: " ++ basename file_path ++ "] - " ++ e

/-- Body of the per-file `try` block of `_process_uploaded_files`
(`app.py:91-137`): classify by lower-cased extension and build the fragment;
a failing read is caught and becomes an error fragment.  The source's locals
`file_name = os.path.basename(file_path)` and
`file_ext = os.path.splitext(file_name)[1].lower()` are inlined. -/
def classifyFile (fd : FileData) (file_path : String) : String :=
  if lowerStr (splitextExt (basename file_path)) ∈ imageExts then
    match fd.readBin with
    | .ok data =>
        "[UPLOADED IMAGE: " ++ basename file_path ++ "] - Base64 data: " ++ base64Encode data
    | .error e => errorFragment file_path e
  else if lowerStr (splitextExt (basename file_path)) ∈ textExts then
    match fd.readTxt with
    | .ok content =>
        "[UPLOADED TEXT FILE: " ++ basename file_path ++ "]\nContent:\n" ++ content
    | .error e => errorFragment file_path e
  else if lowerStr (splitextExt (basename file_path)) = ".csv" then
    "[UPLOADED CSV FILE: " ++ basename file_path ++ "] - File path: " ++ file_path
  else if lowerStr (splitextExt (basename file_path)) = ".xlsx" ∨
      lowerStr (splitextExt (basename file_path)) = ".xls" then
    "[UPLOADED EXCEL FILE: " ++ basename file_path ++ "] - File path: " ++ file_path
  else if lowerStr (splitextExt (basename file_path)) = ".pdf" then
    "[UPLOADED PDF FILE: " ++ basename file_path ++ "] - File path: " ++ file_path
  else
    "[UPLOADED FILE: " ++ basename file_path ++ "] - File path: " ++ file_path

/-- Loop of `_process_uploaded_files` (`app.py:86-137`): the `file_contexts`
list.  A falsy path (empty string) or a non-existing path is skipped. -/
def fileFragments (fs : FS) : List String → List String
  | [] => []
  | p :: rest =>
      if p = "" then fileFragments fs rest
      else
        match fs p with
        | none => fileFragments fs rest
        | some fd => classifyFile fd p :: fileFragments fs rest

/-- Python `"\n\n".join` (`app.py:139`); the join of an empty list is `""`,
matching the `if file_contexts else ""` guard. -/
def joinFragments : List String → String
  | [] => ""
  | [a] => a
  | a :: b :: rest => a ++ "\n\n" ++ joinFragments (b :: rest)

/-- Return value of `_process_uploaded_files` (`app.py:139-143`). -/
def process_uploaded_files (fs : FS) (uploaded_files : List String) : String :=
  joinFragments (fileFragments fs uploaded_files)

/-- Prompt composition of `process_question` (`app.py:32-38`): `file_context`
is computed only for a non-empty upload list (`if uploaded_files:`), and
replaces or extends the question only when it is itself non-empty
(`if file_context:`); the two nested guards are written as one conjunction. -/
def composePrompt (fs : FS) (question : String) (uploaded_files : List String) : String :=
  if uploaded_files ≠ [] ∧ process_uploaded_files fs uploaded_files ≠ "" then
    if pyStrip question ≠ "" then
      question ++ "\n\n" ++ process_uploaded_files fs uploaded_files
    else process_uploaded_files fs uploaded_files
  else question

/-- Message sequence sent to the agent graph (`app.py:42`): a single
`HumanMessage` holding the composed question. -/
def outboundMessages (fs : FS) (question : String) (uploaded_files : List String) :
    List String :=
  [composePrompt fs question uploaded_files]

/-- Post-processing of the agent answer (`app.py:59-60`): strip a literal
leading `"Assistant: "`. -/
def cleanAnswer (answer : String) : String :=
  if pyStartsWith answer "Assistant: " then pySliceFrom answer 11 else answer

/-- Agent graph model: from outbound message contents to returned message
contents, or `str(e)` of a raised exception. -/
def Graph : Type := List String → Except String (List String)

/-- Model of `QnAChatbot.process_question` (`app.py:19-80`).  The gate at
`app.py:21` rejects when the stripped question is empty and no files were
uploaded.  Otherwise the prompt is composed, the graph invoked with one
message, the last returned message's content post-processed and the turn
appended; any exception (including `result['messages'][-1]` on an empty
sequence, an `IndexError`) is caught and recorded as an error turn. -/
def process_question (fs : FS) (graph : Graph) (question : String)
    (history : List (String × String)) (uploaded_files : List String) :
    String × List (String × String) :=
  if pyStrip question = "" ∧ uploaded_files = [] then ("", history)
  else
    match graph (outboundMessages fs question uploaded_files) with
    | .error e =>
        ("", history ++ [(composePrompt fs question uploaded_files,
                          "Error processing question: " ++ e)])
    | .ok msgs =>
        match msgs.getLast? with
        | none =>
            ("", history ++ [(composePrompt fs question uploaded_files,
                              "Error processing question: list index out of range")])
        | some answer =>
            ("", history ++ [(composePrompt fs question uploaded_files,
                              cleanAnswer answer)])

/-- Model of `QnAChatbot.clear_history` (`app.py:145-150`): the stored history
is replaced by `[]` and `[]` is returned.  First component: new stored
history; second: return value. -/
def clear_history (_conversation_history : List (String × String)) :
    List (String × String) × List (String × String) :=
  ([], [])

/-- Header of the export file (`app.py:868-871`). -/
def exportHeader (date : String) (n : Nat) : String :=
  "# GAIA Agent Conversation Export\n" ++
  "Export Date: " ++ date ++ "\n" ++
  "Total Messages: " ++ toString n ++ "\n\n" ++
  String.mk (List.replicate 50 '=') ++ "\n\n"

/-- Block appended for the `i`-th turn (1-based) by the loop at
`app.py:873-877`. -/
def turnBlock (i : Nat) (t : String × String) : String :=
  "## Message " ++ toString i ++ "\n\n" ++
  "**User:** " ++ t.1 ++ "\n\n" ++
  "**Assistant:** " ++ t.2 ++ "\n\n" ++
  String.mk (List.replicate 30 '-') ++ "\n\n"

/-- Accumulating loop of `export_conversation` (`app.py:873-877`), mirroring
`for i, (user_msg, bot_msg) in enumerate(history, 1)` with `+=` on the
accumulated content. -/
def exportLoop (i : Nat) (acc : String) : List (String × String) → String
  | [] => acc
  | t :: rest => exportLoop (i + 1) (acc ++ turnBlock i t) rest

/-- Model of `export_conversation` (`app.py:855-894`): `None` for an empty
history, otherwise the content of the generated Markdown file (the write to a
temporary file is an I/O effect outside the model; the returned path's file
holds exactly this content). -/
def export_conversation (date : String) (history : List (String × String)) :
    Option String :=
  if history = [] then none
  else some (exportLoop 1 (exportHeader date history.length) history)

/-- One-per-turn block sequence in history order, used to state the shape of
the export content. -/
def turnBlocks (i : Nat) : List (String × String) → String
  | [] => ""
  | t :: rest => turnBlock i t ++ turnBlocks (i + 1) rest

/-! Concrete fixtures used by the witnesses: a small filesystem with one CSV
file, one unreadable PNG and one readable text file, and two agent graphs. -/

/-- Readable CSV file. -/
def fdTestCsv : FileData := { readBin := Except.ok [1, 2, 3], readTxt := Except.ok "x,y" }

/-- File whose reads both raise. -/
def fdTestBad : FileData :=
  { readBin := Except.error "read failure", readTxt := Except.error "decode failure" }

/-- Readable text file containing `hi`. -/
def fdTestTxt : FileData := { readBin := Except.ok [104, 105], readTxt := Except.ok "hi" }

/-- Test filesystem. -/
def fsTest : FS := fun p =>
  if p = "/tmp/a.csv" then some fdTestCsv
  else if p = "/tmp/x.png" then some fdTestBad
  else if p = "/tmp/n.txt" then some fdTestTxt
  else none

/-- Agent graph that answers every invocation with one message. -/
def graphOk : Graph := fun _ => Except.ok ["Assistant: 4"]

/-- Agent graph that raises on every invocation. -/
def graphErr : Graph := fun _ => Except.error "boom"

/-! Helper lemmas shared by the claim theorems. -/

theorem append_left_ne_empty (a b : String) (h : a ≠ "") : a ++ b ≠ "" := by
  intro heq
  apply h
  apply String.ext
  have hd := congrArg String.data heq
  rw [String.data_append] at hd
  exact (List.append_eq_nil.mp hd).1

theorem pyStartsWith_append_self (a b : String) : pyStartsWith (a ++ b) a = true := by
  unfold pyStartsWith
  simp only [decide_eq_true_eq]
  rw [String.data_append]
  exact List.take_left a.data b.data

theorem classifyFile_ne_empty (fd : FileData) (p : String) : classifyFile fd p ≠ "" := by
  unfold classifyFile errorFragment
  repeat' split
  all_goals repeat' apply append_left_ne_empty
  all_goals decide

theorem fileFragments_cons_skip (fs : FS) (p : String) (rest : List String)
    (h : p = "" ∨ fs p = none) :
    fileFragments fs (p :: rest) = fileFragments fs rest := by
  conv_lhs => unfold fileFragments
  rcases h with h | h
  · rw [if_pos h]
  · by_cases hp : p = ""
    · rw [if_pos hp]
    · rw [if_neg hp, h]

theorem fileFragments_cons_file (fs : FS) (p : String) (fd : FileData)
    (rest : List String) (hp : p ≠ "") (h : fs p = some fd) :
    fileFragments fs (p :: rest) = classifyFile fd p :: fileFragments fs rest := by
  conv_lhs => unfold fileFragments
  rw [if_neg hp, h]

theorem fileFragments_all_ne_empty (fs : FS) :
    ∀ files : List String, ∀ s ∈ fileFragments fs files, s ≠ "" := by
  intro files
  induction files with
  | nil => intro s hs; exact absurd hs (List.not_mem_nil s)
  | cons p rest ih =>
      intro s hs
      by_cases hp : p = ""
      · rw [fileFragments_cons_skip fs p rest (Or.inl hp)] at hs
        exact ih s hs
      · cases hfp : fs p with
        | none =>
            rw [fileFragments_cons_skip fs p rest (Or.inr hfp)] at hs
            exact ih s hs
        | some fd =>
            rw [fileFragments_cons_file fs p fd rest hp hfp] at hs
            rcases List.mem_cons.mp hs with rfl | hmem
            · exact classifyFile_ne_empty fd p
            · exact ih s hmem

theorem joinFragments_ne_empty (l : List String) (hne : l ≠ [])
    (hall : ∀ s ∈ l, s ≠ "") : joinFragments l ≠ "" := by
  match l with
  | [] => exact absurd rfl hne
  | [a] => exact hall a (List.mem_singleton.mpr rfl)
  | a :: b :: rest =>
      show a ++ "\n\n" ++ joinFragments (b :: rest) ≠ ""
      apply append_left_ne_empty
      apply append_left_ne_empty
      exact hall a (List.mem_cons_self a (b :: rest))

theorem mem_textExts_not_imageExts {s : String} (h : s ∈ textExts) : s ∉ imageExts := by
  fin_cases h <;> decide

theorem exportLoop_eq (l : List (String × String)) :
    ∀ (i : Nat) (acc : String), exportLoop i acc l = acc ++ turnBlocks i l := by
  induction l with
  | nil =>
      intro i acc
      show acc = acc ++ ""
      rw [String.append_empty]
  | cons t rest ih =>
      intro i acc
      show exportLoop (i + 1) (acc ++ turnBlock i t) rest =
        acc ++ (turnBlock i t ++ turnBlocks (i + 1) rest)
      rw [ih, String.append_assoc]

/-- Claim C4: post-processing removes exactly the literal 11-character
`"Assistant: "` prefix when the response begins with it, and leaves the
response unchanged when it does not. -/
theorem assistant_marker_stripping :
    (∀ s : String, cleanAnswer ("Assistant: " ++ s) = s) ∧
    (∀ answer : String, pyStartsWith answer "Assistant: " = false →
       cleanAnswer answer = answer) ∧
    ("Assistant: " : String).length = 11 := by
  refine ⟨?_, ?_, rfl⟩
  · intro s
    unfold cleanAnswer
    rw [pyStartsWith_append_self]
    simp only [if_true]
    unfold pySliceFrom
    rw [String.data_append]
    rw [show (11 : Nat) = ("Assistant: " : String).data.length from rfl]
    rw [List.drop_left]
  · intro answer h
    unfold cleanAnswer
    rw [h]
    simp

/-- Witness for C4 at concrete responses. -/
theorem assistant_marker_stripping_witness :
    cleanAnswer "Assistant: 4" = "4" ∧
    pyStartsWith "hello" "Assistant: " = false ∧
    cleanAnswer "hello" = "hello" := by
  refine ⟨?_, by decide, assistant_marker_stripping.2.1 "hello" (by decide)⟩
  have h := assistant_marker_stripping.1 "4"
  rw [(rfl : "Assistant: " ++ "4" = "Assistant: 4")] at h
  exact h

/-- Claim C6: a falsy (empty) or non-existing uploaded path is skipped
silently: no fragment is emitted for it and the fragments of the remaining
paths are unchanged. -/
theorem invalid_paths_skipped (fs : FS) (p : String) (rest : List String)
    (h : p = "" ∨ fs p = none) :
    fileFragments fs (p :: rest) = fileFragments fs rest :=
  fileFragments_cons_skip fs p rest h

/-- Witness for C6: a non-existing path before an existing CSV file. -/
theorem invalid_paths_skipped_witness :
    ("/nope" = "" ∨ fsTest "/nope" = none) ∧
    fileFragments fsTest ["/nope", "/tmp/a.csv"] = fileFragments fsTest ["/tmp/a.csv"] :=
  ⟨Or.inr (by decide), invalid_paths_skipped fsTest "/nope" ["/tmp/a.csv"] (Or.inr (by decide))⟩

/-- Claim C8: `clear_history` returns an empty sequence regardless of the
prior stored history, and the stored history afterwards is empty. -/
theorem clear_history_empties (conversation_history : List (String × String)) :
    clear_history conversation_history = ([], []) := rfl

/-- Claim C9: exporting a non-empty history of n turns yields a Markdown
content equal to the header (with the export timestamp and the turn count n)
followed by exactly one User/Assistant block per turn, in history order. -/
theorem export_markdown_structure (date : String) (history : List (String × String))
    (h : history ≠ []) :
    export_conversation date history =
      some (exportHeader date history.length ++ turnBlocks 1 history) := by
  unfold export_conversation
  rw [if_neg h, exportLoop_eq]

/-- Witness for C9 at a one-turn history. -/
theorem export_markdown_structure_witness :
    export_conversation "2026-10-12 00:00:00" [("a", "b")] =
      some (exportHeader "2026-10-12 00:00:00" 1 ++ turnBlocks 1 [("a", "b")]) :=
  export_markdown_structure "2026-10-12 00:00:00" [("a", "b")] (by decide)

/-- Claim C2: for an existing uploaded file, classification by lower-cased
extension produces the documented fragment shape: image extensions embed the
base64 of the full binary content, text extensions embed the full UTF-8
content under a labeled header, and tabular or PDF extensions yield a
path-only fragment computed without reading the file's content. -/
theorem classification_shapes (fd : FileData) (p : String) :
    (lowerStr (splitextExt (basename p)) ∈ imageExts →
       ∀ bytes, fd.readBin = Except.ok bytes →
       classifyFile fd p =
         "[UPLOADED IMAGE: " ++ basename p ++ "] - Base64 data: " ++ base64Encode bytes) ∧
    (lowerStr (splitextExt (basename p)) ∈ textExts →
       ∀ content, fd.readTxt = Except.ok content →
       classifyFile fd p =
         "[UPLOADED TEXT FILE: " ++ basename p ++ "]\nContent:\n" ++ content) ∧
    (lowerStr (splitextExt (basename p)) = ".csv" →
       classifyFile fd p = "[UPLOADED CSV FILE: " ++ basename p ++ "] - File path: " ++ p ∧
       ∀ fd2 : FileData, classifyFile fd2 p = classifyFile fd p) ∧
    (lowerStr (splitextExt (basename p)) = ".xlsx" ∨
        lowerStr (splitextExt (basename p)) = ".xls" →
       classifyFile fd p = "[UPLOADED EXCEL FILE: " ++ basename p ++ "] - File path: " ++ p ∧
       ∀ fd2 : FileData, classifyFile fd2 p = classifyFile fd p) ∧
    (lowerStr (splitextExt (basename p)) = ".pdf" →
       classifyFile fd p = "[UPLOADED PDF FILE: " ++ basename p ++ "] - File path: " ++ p ∧
       ∀ fd2 : FileData, classifyFile fd2 p = classifyFile fd p) := by
  refine ⟨?_, ?_, ?_, ?_, ?_⟩
  · intro himg bytes hb
    unfold classifyFile
    rw [if_pos himg, hb]
  · intro htxt content hc
    unfold classifyFile
    rw [if_neg (mem_textExts_not_imageExts htxt), if_pos htxt, hc]
  · intro hcsv
    have reduce : ∀ fd0 : FileData,
        classifyFile fd0 p = "[UPLOADED CSV FILE: " ++ basename p ++ "] - File path: " ++ p := by
      intro fd0
      unfold classifyFile
      rw [hcsv, if_neg (by decide), if_neg (by decide), if_pos rfl]
    exact ⟨reduce fd, fun fd2 => (reduce fd2).trans (reduce fd).symm⟩
  · intro hx
    have reduce : ∀ fd0 : FileData,
        classifyFile fd0 p = "[UPLOADED EXCEL FILE: " ++ basename p ++ "] - File path: " ++ p := by
      intro fd0
      unfold classifyFile
      rcases hx with h | h
      · rw [h, if_neg (by decide), if_neg (by decide), if_neg (by decide),
          if_pos (Or.inl rfl)]
      · rw [h, if_neg (by decide), if_neg (by decide), if_neg (by decide),
          if_pos (Or.inr rfl)]
    exact ⟨reduce fd, fun fd2 => (reduce fd2).trans (reduce fd).symm⟩
  · intro hpdf
    have reduce : ∀ fd0 : FileData,
        classifyFile fd0 p = "[UPLOADED PDF FILE: " ++ basename p ++ "] - File path: " ++ p := by
      intro fd0
      unfold classifyFile
      rw [hpdf, if_neg (by decide), if_neg (by decide), if_neg (by decide),
        if_neg (by decide), if_pos rfl]
    exact ⟨reduce fd, fun fd2 => (reduce fd2).trans (reduce fd).symm⟩

/-- Witness for C2: a text file and a CSV file under the test filesystem. -/
theorem classification_shapes_witness :
    lowerStr (splitextExt (basename "/tmp/n.txt")) ∈ textExts ∧
    classifyFile fdTestTxt "/tmp/n.txt" = "[UPLOADED TEXT FILE: n.txt]\nContent:\nhi" ∧
    lowerStr (splitextExt (basename "/tmp/a.csv")) = ".csv" ∧
    classifyFile fdTestCsv "/tmp/a.csv" = "[UPLOADED CSV FILE: a.csv] - File path: /tmp/a.csv" := by
  refine ⟨by decide, ?_, by decide, ?_⟩
  · exact ((classification_shapes fdTestTxt "/tmp/n.txt").2.1 (by decide) "hi" rfl).trans
      (by decide)
  · exact (((classification_shapes fdTestCsv "/tmp/a.csv").2.2.1 (by decide)).1).trans
      (by decide)

/-- Claim C5: a per-file read failure is caught, converted into an inline
error fragment tagged with the file's base name, and processing continues
with the remaining files (the classifier itself is a total function and
never raises). -/
theorem file_errors_become_fragments (fs : FS) (p : String) (fd : FileData)
    (rest : List String) (e : String) (hp : p ≠ "") (hfs : fs p = some fd) :
    (lowerStr (splitextExt (basename p)) ∈ imageExts → fd.readBin = Except.error e →
       fileFragments fs (p :: rest) =
         ("[ERROR PROCESSING FILE: " ++ basename p ++ "] - " ++ e) :: fileFragments fs rest) ∧
    (lowerStr (splitextExt (basename p)) ∈ textExts → fd.readTxt = Except.error e →
       fileFragments fs (p :: rest) =
         ("[ERROR PROCESSING FILE: " ++ basename p ++ "] - " ++ e) :: fileFragments fs rest) := by
  constructor
  · intro himg herr
    rw [fileFragments_cons_file fs p fd rest hp hfs]
    unfold classifyFile errorFragment
    rw [if_pos himg, herr]
  · intro htxt herr
    rw [fileFragments_cons_file fs p fd rest hp hfs]
    unfold classifyFile errorFragment
    rw [if_neg (mem_textExts_not_imageExts htxt), if_pos htxt, herr]

/-- Witness for C5: the unreadable PNG yields an error fragment and the CSV
file after it is still processed. -/
theorem file_errors_become_fragments_witness :
    fileFragments fsTest ["/tmp/x.png", "/tmp/a.csv"] =
      "[ERROR PROCESSING FILE: x.png] - read failure" ::
        fileFragments fsTest ["/tmp/a.csv"] := by
  have h := (file_errors_become_fragments fsTest "/tmp/x.png" fdTestBad ["/tmp/a.csv"]
      "read failure" (by decide) (by decide)).1 (by decide) rfl
  refine h.trans ?_
  have hlit : ("[ERROR PROCESSING FILE: " ++ basename "/tmp/x.png" ++ "] - " ++ "read failure") =
      "[ERROR PROCESSING FILE: x.png] - read failure" := by decide
  rw [hlit]

/-- Claim C1: the composed prompt obeys the composer equations — non-blank
text and non-empty joined fragments give text, blank line, fragments; empty
text gives exactly the joined fragments; empty fragments give exactly the
text — and the submission fails (empty string returned, history unchanged,
no agent invocation, so the result is the same for every graph) exactly when
both inputs are empty. -/
theorem composer_equations (fs : FS) (question : String)
    (history : List (String × String)) (uploaded_files : List String) :
    (pyStrip question ≠ "" → process_uploaded_files fs uploaded_files ≠ "" →
       composePrompt fs question uploaded_files =
         question ++ "\n\n" ++ process_uploaded_files fs uploaded_files) ∧
    (question = "" →
       composePrompt fs question uploaded_files =
         process_uploaded_files fs uploaded_files) ∧
    (process_uploaded_files fs uploaded_files = "" →
       composePrompt fs question uploaded_files = question) ∧
    ((∀ g : Graph, process_question fs g question history uploaded_files = ("", history)) ↔
       (pyStrip question = "" ∧ uploaded_files = [])) := by
  refine ⟨?_, ?_, ?_, ?_, ?_⟩
  · intro hq hfc
    have hfiles : uploaded_files ≠ [] := by
      intro h0
      exact hfc (by rw [h0]; rfl)
    unfold composePrompt
    rw [if_pos ⟨hfiles, hfc⟩, if_pos hq]
  · intro hq
    subst hq
    unfold composePrompt
    by_cases hcond : uploaded_files ≠ [] ∧ process_uploaded_files fs uploaded_files ≠ ""
    · rw [if_pos hcond, if_neg (fun h0 => h0 rfl)]
    · rw [if_neg hcond]
      rcases not_and_or.mp hcond with hfiles | hfc
      · rw [not_not.mp hfiles]
        rfl
      · rw [not_not.mp hfc]
  · intro hfc
    unfold composePrompt
    rw [if_neg (fun hcond => hcond.2 hfc)]
  · intro hall
    by_contra hgate
    have key : process_question fs (fun _ => Except.ok ["x"]) question history uploaded_files =
        ("", history ++ [(composePrompt fs question uploaded_files, cleanAnswer "x")]) := by
      unfold process_question
      rw [if_neg hgate]
      rfl
    have h1 := (hall (fun _ => Except.ok ["x"])).symm.trans key
    have h2 := congrArg (fun r => r.2.length) h1
    simp only [List.length_append, List.length_cons, List.length_nil] at h2
    omega
  · intro hgate g
    unfold process_question
    rw [if_pos hgate]

/-- Witness for C1: both composition with text plus a CSV fragment and the
rejection of a fully empty submission, at concrete inputs. -/
theorem composer_equations_witness :
    pyStrip "2+2?" ≠ "" ∧
    process_uploaded_files fsTest ["/tmp/a.csv"] ≠ "" ∧
    composePrompt fsTest "2+2?" ["/tmp/a.csv"] =
      "2+2?" ++ "\n\n" ++ process_uploaded_files fsTest ["/tmp/a.csv"] ∧
    process_question fsTest graphOk "" [] [] = ("", []) := by
  refine ⟨by decide, by decide, ?_, ?_⟩
  · exact (composer_equations fsTest "2+2?" [] ["/tmp/a.csv"]).1 (by decide) (by decide)
  · exact ((composer_equations fsTest "" [] []).2.2.2.mpr (by decide)) graphOk

/-- Claim C3: when the agent invocation raises, the exception is caught: the
adapter still returns a 2-element result whose first element is the empty
string, and exactly one turn is appended whose response is an error string
carrying an error indicator. -/
theorem invocation_error_recorded (fs : FS) (graph : Graph) (question : String)
    (history : List (String × String)) (uploaded_files : List String) (e : String)
    (hgate : ¬(pyStrip question = "" ∧ uploaded_files = []))
    (herr : graph (outboundMessages fs question uploaded_files) = Except.error e) :
    process_question fs graph question history uploaded_files =
      ("", history ++ [(composePrompt fs question uploaded_files,
          "Error processing question: " ++ e)]) ∧
    (process_question fs graph question history uploaded_files).2.length =
      history.length + 1 ∧
    pyStartsWith ("Error processing question: " ++ e) "Error processing question: " = true := by
  have key : process_question fs graph question history uploaded_files =
      ("", history ++ [(composePrompt fs question uploaded_files,
          "Error processing question: " ++ e)]) := by
    unfold process_question
    rw [if_neg hgate, herr]
  refine ⟨key, ?_, pyStartsWith_append_self "Error processing question: " e⟩
  rw [key]
  simp

/-- Witness for C3: a graph that raises on every call. -/
theorem invocation_error_recorded_witness :
    process_question fsTest graphErr "2+2?" [] [] =
      ("", [("2+2?", "Error processing question: boom")]) := by
  have h := (invocation_error_recorded fsTest graphErr "2+2?" [] [] "boom"
      (by decide) rfl).1
  exact h.trans (by decide)

/-- Claim C7: a non-rejected submission sends the agent exactly one outbound
message, the composed prompt, and the recorded answer is the post-processed
content of the last message of the returned sequence; the result depends on
the graph only through its value at that singleton message sequence. -/
theorem single_message_exchange (fs : FS) (graph : Graph) (question : String)
    (history : List (String × String)) (uploaded_files : List String)
    (msgs : List String) (answer : String)
    (hgate : ¬(pyStrip question = "" ∧ uploaded_files = []))
    (hok : graph (outboundMessages fs question uploaded_files) = Except.ok msgs)
    (hlast : msgs.getLast? = some answer) :
    outboundMessages fs question uploaded_files =
      [composePrompt fs question uploaded_files] ∧
    (outboundMessages fs question uploaded_files).length = 1 ∧
    process_question fs graph question history uploaded_files =
      ("", history ++ [(composePrompt fs question uploaded_files, cleanAnswer answer)]) ∧
    (∀ g1 g2 : Graph,
       g1 (outboundMessages fs question uploaded_files) =
         g2 (outboundMessages fs question uploaded_files) →
       process_question fs g1 question history uploaded_files =
         process_question fs g2 question history uploaded_files) := by
  refine ⟨rfl, rfl, ?_, ?_⟩
  · unfold process_question
    rw [if_neg hgate]
    simp only [hok]
    rw [hlast]
  · intro g1 g2 hgg
    unfold process_question
    rw [if_neg hgate, if_neg hgate, hgg]

/-- Witness for C7: the spec's example submission, one message out and the
last returned message taken as the answer. -/
theorem single_message_exchange_witness :
    process_question fsTest graphOk "2+2?" [] [] = ("", [("2+2?", "4")]) := by
  have h := (single_message_exchange fsTest graphOk "2+2?" [] [] ["Assistant: 4"]
      "Assistant: 4" (by decide) rfl rfl).2.2.1
  exact h.trans (by decide)

/-- Claim C10: on every non-rejected submission the appended turn records as
its request the composed prompt — with fragments this is the text, a blank
line, then the joined fragments, or the fragments alone for whitespace-only
text; without fragments it is the raw input text — on the success path and
the invocation-error path alike. -/
theorem recorded_request_is_composed (fs : FS) (graph : Graph) (question : String)
    (history : List (String × String)) (uploaded_files : List String)
    (hgate : ¬(pyStrip question = "" ∧ uploaded_files = [])) :
    (process_question fs graph question history uploaded_files).2.map Prod.fst =
      history.map Prod.fst ++ [composePrompt fs question uploaded_files] ∧
    (fileFragments fs uploaded_files ≠ [] →
       composePrompt fs question uploaded_files =
         if pyStrip question ≠ "" then
           question ++ "\n\n" ++ process_uploaded_files fs uploaded_files
         else process_uploaded_files fs uploaded_files) ∧
    (fileFragments fs uploaded_files = [] →
       composePrompt fs question uploaded_files = question) := by
  refine ⟨?_, ?_, ?_⟩
  · unfold process_question
    rw [if_neg hgate]
    cases hg : graph (outboundMessages fs question uploaded_files) with
    | error e => simp
    | ok msgs =>
        cases hl : msgs.getLast? with
        | none => simp [hl]
        | some answer => simp [hl]
  · intro hfrag
    have hfiles : uploaded_files ≠ [] := by
      intro h0
      rw [h0] at hfrag
      exact hfrag rfl
    have hfc : process_uploaded_files fs uploaded_files ≠ "" :=
      joinFragments_ne_empty (fileFragments fs uploaded_files) hfrag
        (fileFragments_all_ne_empty fs uploaded_files)
    unfold composePrompt
    rw [if_pos ⟨hfiles, hfc⟩]
  · intro hfrag
    have hfc : process_uploaded_files fs uploaded_files = "" := by
      unfold process_uploaded_files
      rw [hfrag]
      rfl
    unfold composePrompt
    rw [if_neg (fun hcond => hcond.2 hfc)]

/-- Witness for C10: a submission with text and a CSV fragment records the
composed prompt, not the raw text. -/
theorem recorded_request_is_composed_witness :
    (process_question fsTest graphOk "hi" [] ["/tmp/a.csv"]).2.map Prod.fst =
      [composePrompt fsTest "hi" ["/tmp/a.csv"]] ∧
    composePrompt fsTest "hi" ["/tmp/a.csv"] =
      "hi" ++ "\n\n" ++ process_uploaded_files fsTest ["/tmp/a.csv"] := by
  have h := recorded_request_is_composed fsTest graphOk "hi" [] ["/tmp/a.csv"] (by decide)
  refine ⟨h.1.trans (by simp), (h.2.1 (by decide)).trans ?_⟩
  rw [if_pos (by decide)]

end GaiaApp
